import Mathlib

/-!
Verification of the onelyid-local middleware core
(src/packages/client/index.ts, src/packages/client/types.ts).

The development shallowly embeds the initialization-and-request-gating
state machine: the per-instance mutable state (`RespGlobals`, `AppContext`,
the bootstrap error flag and the registration flag), the asynchronous
bootstrap sequence, the per-request gate middleware, and the four route
handlers.  External collaborators (storage, protocol client, session
store) are modelled by their observable results (`Except` values passed
in as parameters), exactly where the TypeScript awaits them.
-/

/-- A JavaScript exception value.  The login handler distinguishes
`OAuthResolverError` (whose message is surfaced) from every other error,
so the model keeps that one distinction. -/
inductive JsErr where
  | resolverError (msg : String)
  | otherError (tag : Nat)
deriving Repr, DecidableEq

/-- Modelled from the spec: the `INVALID` sentinel imported from
`./const` (src/packages/client/const.ts is not under src/).  Per the spec
it is a distinguished marker, not the empty string (empty means
"defer to first-request auto-detection"). -/
def INVALID : String := "__INVALID__"

/-- Modelled from the spec: the `DEFAULT_MOUNT_PATH` constant imported
from `./const` (src/packages/client/const.ts is not under src/): the
default mount path used when no mount path was configured. -/
def DEFAULT_MOUNT_PATH : String := "/onelyid"

/-- `String.startsWith`, computed structurally on the character lists
so that the kernel can evaluate it. -/
def strStartsWith (s p : String) : Bool :=
  p.data.isPrefixOf s.data

/-- `String.endsWith`, computed structurally on the character lists. -/
def strEndsWith (s p : String) : Bool :=
  p.data.reverse.isPrefixOf s.data.reverse

/-- `String.contains`, computed structurally on the character list. -/
def strContains (s : String) (c : Char) : Bool :=
  s.data.contains c

/-- JavaScript `String.prototype.split` with a single-character
separator, computed structurally: `"a:b".split(':') = ["a", "b"]`,
`"abc".split(':') = ["abc"]`, `"".split(':') = [""]`. -/
def splitChar (sep : Char) : List Char → List (List Char)
  | [] => [[]]
  | c :: rest =>
    let r := splitChar sep rest
    if c = sep then [] :: r
    else
      match r with
      | [] => [[c]]
      | h :: t => (c :: h) :: t

/-- The scheme check of the URL validator: accepts exactly absolute
`http`/`https` URLs, returning the part after the scheme. -/
def stripScheme (s : String) : Option String :=
  if strStartsWith s "http://" then some (s.drop 7)
  else if strStartsWith s "https://" then some (s.drop 8)
  else none

/-- The host portion of the remainder of a URL: everything before the
first `:` or `/`. -/
def hostOf (rest : String) : String :=
  ⟨rest.data.takeWhile (fun c => c != ':' && c != '/')⟩

/-- Modelled from the spec: `assertPublicUrl` from `./utils`
(src/packages/client/utils.ts is not under src/).  Per the spec
(`normalizePublicUrl`): absent input yields the empty string, meaning
"defer to first-request auto-detection"; input that parses as an
absolute `http`/`https` URL with a public (dotted) hostname is returned
unchanged; input that does not parse as an absolute `http`/`https` URL
yields the `INVALID` sentinel.  A parsable URL with a non-public
hostname (e.g. `http://localhost:4000`, or `http://undefined` built from
an absent Host header) yields the empty string, which is what makes the
gate fall back to a loopback URL: the spec states that auto-detected
values always fall back to loopback rather than INVALID, and gives
`localhost:4000` falling back to `http://127.0.0.1:4000` as an example. -/
def assertPublicUrl : Option String → String
  | none => ""
  | some s =>
    if s = "" then ""
    else
      match stripScheme s with
      | none => INVALID
      | some rest =>
        let h := hostOf rest
        if h = "" then INVALID
        else if strContains h '.' then s
        else ""

/-- Modelled from the spec: `assertPath` from `./utils`
(src/packages/client/utils.ts is not under src/).  Per the spec
(`normalizeMountPath`): absent input yields the empty string (so
`mountPath || DEFAULT_MOUNT_PATH` and `assertPath(loginRedirect) || ...`
fall through to their defaults), and a path already in canonical
leading-slash, no-trailing-slash form is returned unchanged.  The
fatal-throw branch for structurally invalid input is outside the domain
any claim exercises and is modelled as the empty string. -/
def assertPath : Option String → String
  | none => ""
  | some p => if strStartsWith p "/" && !strEndsWith p "/" then p else ""

/-- The shared mutable runtime-config record (`RespGlobals` in
src/packages/client/types.ts). -/
structure RespGlobals where
  cookieSecret : String
  publicUrl : String
  mountPath : String
  baseUrl : String
  prefixPath : String
  prefixRoute : String
  basePath : String
deriving Repr, DecidableEq

/-- The application context (`AppContext` in
src/packages/client/types.ts).  The storage handle, protocol client and
resolver are opaque to the gate, so they are modelled as numeric tokens;
only their null/non-null state matters. -/
structure AppContext where
  db : Option Nat
  oauthClient : Option Nat
  resolver : Option Nat
deriving Repr, DecidableEq

/-- The whole per-instance mutable state captured by the middleware
closure: `globals`, `ctx`, `initError`, `routesRegistered`. -/
structure MwState where
  globals : RespGlobals
  ctx : AppContext
  initError : Option JsErr
  routesRegistered : Bool
deriving Repr, DecidableEq

/-- The transport context of one request, as the gate reads it:
`req.protocol`, `req.get('host')` (absent when the header is missing),
and `req.baseUrl` (the host framework's mount point, empty at root). -/
structure Request where
  protocol : String
  host : Option String
  reqBaseUrl : String
deriving Repr, DecidableEq

/-- `host?.split(':')[1] ?? ''` from the loopback fallback
(src/packages/client/index.ts line 91). -/
def extractedPort : Option String → String
  | none => ""
  | some h => ⟨(splitChar ':' h.data).getD 1 []⟩

/-- The string interpolation `${req.protocol}://${host}`: an absent
host interpolates as the literal `undefined`. -/
def urlCandidate (req : Request) : String :=
  req.protocol ++ "://" ++ (match req.host with | none => "undefined" | some h => h)

/-- The publicUrl auto-detection block of the gate
(src/packages/client/index.ts lines 84-94), run when `publicUrl` is
still empty: validate `protocol://host`; on success freeze it into
`publicUrl` and `baseUrl`; otherwise set `baseUrl` to a loopback URL
built from the port portion of the Host header. -/
def detectPublicUrl (g : RespGlobals) (req : Request) : RespGlobals :=
  let detected := assertPublicUrl (some (urlCandidate req))
  if detected ≠ "" then
    { g with publicUrl := detected, baseUrl := detected }
  else
    let port := extractedPort req.host
    { g with baseUrl := "http://127.0.0.1" ++ (if port = "80" then "" else ":" ++ port) }

/-- The basePath computation block of the gate
(src/packages/client/index.ts lines 100-110), run when `basePath` is
still empty. -/
def computeBasePaths (g : RespGlobals) (req : Request) : RespGlobals :=
  if req.reqBaseUrl ≠ "" then
    { g with prefixPath := req.reqBaseUrl ++ g.mountPath,
             prefixRoute := g.mountPath,
             basePath := g.baseUrl ++ (req.reqBaseUrl ++ g.mountPath) }
  else
    let pp := if g.mountPath ≠ "" then g.mountPath else DEFAULT_MOUNT_PATH
    { g with prefixPath := pp, prefixRoute := pp, basePath := g.baseUrl ++ pp }

/-- How the gate middleware disposes of one request. -/
inductive GateOutcome where
  /-- `next(initError)`: forward the recorded bootstrap error to the
  host framework's error channel. -/
  | nextError (e : JsErr)
  /-- `res.status(503).send(body)`: answer directly; control never
  passes to the route handlers. -/
  | send503 (body : String)
  /-- `next()`: pass control onward to the registered route handlers. -/
  | continueOn
  /-- `await createClient(...)` rejected inside the gate body. -/
  | gateThrow (e : JsErr)
deriving Repr, DecidableEq

/-- Which one-time resolutions this particular gate pass executed. -/
structure GateActions where
  detectedUrl : Bool
  computedBasePath : Bool
  registeredRoutes : Bool
  constructedClient : Bool
deriving Repr, DecidableEq

/-- The all-false action record: the gate pass executed none of the
one-time resolution steps. -/
def noActions : GateActions := ⟨false, false, false, false⟩

/-- Result of one gate pass: the outcome, the updated instance state,
and the actions performed. -/
structure GateResult where
  outcome : GateOutcome
  state : MwState
  acts : GateActions
deriving Repr, DecidableEq

/-- The tail of the gate body (src/packages/client/index.ts lines
100-125), after the publicUrl checks: compute the path fields when
`basePath` is still empty, register routes once, construct the
protocol client when absent, then pass control onward.  `g1` is the
globals record after the detection block and `detecting` records
whether that block ran. -/
def gateTail (s : MwState) (req : Request) (cc : Except JsErr Nat)
    (g1 : RespGlobals) (detecting : Bool) : GateResult :=
  let computing : Bool := decide (g1.basePath = "")
  let g2 := if computing then computeBasePaths g1 req else g1
  let registering := !s.routesRegistered
  let s2 : MwState := { s with globals := g2, routesRegistered := true }
  if s.ctx.oauthClient = none then
    match cc with
    | .error e => ⟨.gateThrow e, s2, ⟨detecting, computing, registering, true⟩⟩
    | .ok c =>
      ⟨.continueOn, { s2 with ctx := { s2.ctx with oauthClient := some c } },
        ⟨detecting, computing, registering, true⟩⟩
  else
    ⟨.continueOn, s2, ⟨detecting, computing, registering, false⟩⟩

/-- The gate body after the bootstrap checks
(src/packages/client/index.ts lines 84-125): auto-detect `publicUrl`
when still empty, 503 when `publicUrl` equals the INVALID sentinel,
then continue with `gateTail`. -/
def gateReady (s : MwState) (req : Request) (cc : Except JsErr Nat) : GateResult :=
  let detecting : Bool := decide (s.globals.publicUrl = "")
  let g1 := if detecting then detectPublicUrl s.globals req else s.globals
  if g1.publicUrl = INVALID then
    ⟨.send503 "Invalid publicUrl provided! Valid example: https://example.com",
      { s with globals := g1 }, ⟨detecting, false, false, false⟩⟩
  else
    gateTail s req cc g1 detecting

/-- The gate middleware (src/packages/client/index.ts lines 76-125) as
a state transformer for one request.  `cc` is the observable result of
`await createClient(ctx, globals)` for this pass.  In order: forward a
recorded bootstrap error; 503 while the storage handle, secret or
resolver is unset; then the detection, path, registration and client
stages of `gateReady`. -/
def gateStep (s : MwState) (req : Request) (cc : Except JsErr Nat) : GateResult :=
  match s.initError with
  | some e => ⟨.nextError e, s, noActions⟩
  | none =>
    if s.ctx.db = none ∨ s.globals.cookieSecret = "" ∨ s.ctx.resolver = none then
      ⟨.send503 "Service initializing", s, noActions⟩
    else
      gateReady s req cc

/-- The external operations the bootstrap sequence awaits, identified
for the invocation trace. -/
inductive BootOp where
  | opCreateDb
  | opMigrate
  | opGetOrCreateSecret
  | opCreateIdResolver
  | opCreateBidiResolver
deriving Repr, DecidableEq

/-- Observable results of the external collaborators the bootstrap
sequence calls (storage open, migration, secret upsert, resolver
construction), each of which may throw. -/
structure BootEnv where
  createDb : Except JsErr Nat
  migrateToLatest : Except JsErr Unit
  getOrCreateCookieSecret : Except JsErr String
  createIdResolver : Except JsErr Nat
  createBidirectionalResolver : Except JsErr Nat
deriving Repr

/-- What the bootstrap sequence left behind: the context fields it
assigned, the cookie secret, the recorded error, and the trace of
collaborator operations it invoked (in invocation order; an operation
that threw is the last entry of the trace). -/
structure BootResult where
  db : Option Nat
  cookieSecret : String
  resolver : Option Nat
  initError : Option JsErr
  trace : List BootOp
deriving Repr, DecidableEq

/-- The fire-and-forget bootstrap sequence
(src/packages/client/index.ts lines 58-73).  `staticSecret` is
`globals.cookieSecret` at kickoff, i.e. `config?.cookieSecret ?? ''`.
The body assigns `ctx.db`, runs migration, fetches-or-generates the
cookie secret only when the static one is empty, then constructs the
resolver; the surrounding catch records any thrown error as
`initError`, and assignments made before the throw persist. -/
def runBootstrap (env : BootEnv) (staticSecret : String) : BootResult :=
  match env.createDb with
  | .error e => ⟨none, staticSecret, none, some e, [.opCreateDb]⟩
  | .ok db =>
    match env.migrateToLatest with
    | .error e => ⟨some db, staticSecret, none, some e, [.opCreateDb, .opMigrate]⟩
    | .ok _ =>
      let secretStep : Except JsErr String × List BootOp :=
        if staticSecret = "" then (env.getOrCreateCookieSecret, [.opGetOrCreateSecret])
        else (.ok staticSecret, [])
      match secretStep.1 with
      | .error e =>
        ⟨some db, staticSecret, none, some e, [.opCreateDb, .opMigrate] ++ secretStep.2⟩
      | .ok secret =>
        match env.createIdResolver with
        | .error e =>
          ⟨some db, secret, none, some e,
            [.opCreateDb, .opMigrate] ++ secretStep.2 ++ [.opCreateIdResolver]⟩
        | .ok _base =>
          match env.createBidirectionalResolver with
          | .error e =>
            ⟨some db, secret, none, some e,
              [.opCreateDb, .opMigrate] ++ secretStep.2
                ++ [.opCreateIdResolver, .opCreateBidiResolver]⟩
          | .ok r =>
            ⟨some db, secret, some r, none,
              [.opCreateDb, .opMigrate] ++ secretStep.2
                ++ [.opCreateIdResolver, .opCreateBidiResolver]⟩

/-- Response payload of the login handler: either the structured
invalid-handle object `res.json({ handle, error })`, a redirect to the
authorization URL, or the structured authorize-failure object
`res.json({ error })`. -/
inductive LoginResp where
  | jsonHandleError (handle : String) (error : String)
  | redirect (url : String)
  | jsonAuthError (error : String)
deriving Repr, DecidableEq

/-- Result of the login handler: the response produced and whether
`ctx.oauthClient.authorize` was invoked. -/
structure LoginResult where
  resp : LoginResp
  authorizeCalled : Bool
deriving Repr, DecidableEq

/-- The login route handler (src/packages/client/index.ts lines
161-186).  `isValidHandle` is the external syntax check from
`@atproto/syntax`; `authorize` is the observable result of
`ctx.oauthClient.authorize(handle, ...)`; `queryHandle` is
`req.query.handle` (absent when the query parameter is missing, in
which case the echoed handle interpolates to the empty string). -/
def loginHandler (isValidHandle : String → Bool)
    (authorize : Except JsErr String) (queryHandle : Option String) : LoginResult :=
  match queryHandle with
  | none => ⟨.jsonHandleError "" "invalid handle", false⟩
  | some h =>
    if !isValidHandle h then ⟨.jsonHandleError h "invalid handle", false⟩
    else
      match authorize with
      | .ok url => ⟨.redirect url, true⟩
      | .error e =>
        ⟨.jsonAuthError (match e with
          | .resolverError msg => msg
          | .otherError _ => "couldn\x27t initiate login"), true⟩

/-- Observable results of the collaborators the callback handler
awaits: `ctx.oauthClient.callback(params)` (yielding the exchanged
identity's did), `getSession(req, res, cookieSecret)`, and
`clientSession.save()`. -/
structure CallbackEnv where
  exchange : Except JsErr String
  getSession : Except JsErr Nat
  save : Except JsErr Unit
deriving Repr

/-- Result of the callback handler: where it redirected, the did
persisted into the session (none when nothing was durably saved), and
whether the failure path logged an error. -/
structure CallbackResult where
  redirectTo : String
  savedDid : Option String
  logged : Bool
deriving Repr, DecidableEq

/-- The callback route handler (src/packages/client/index.ts lines
140-158): exchange the callback params, open the session, set its did,
save it; any throw in that sequence is logged and answered with a
redirect to `/?error`; on success redirect to
`assertPath(config.loginRedirect) || prefixPath + "/userinfo"`. -/
def callbackHandler (env : CallbackEnv) (loginRedirectCfg : Option String)
    (g : RespGlobals) : CallbackResult :=
  match env.exchange with
  | .error _ => ⟨"/?error", none, true⟩
  | .ok did =>
    match env.getSession with
    | .error _ => ⟨"/?error", none, true⟩
    | .ok _sess =>
      match env.save with
      | .error _ => ⟨"/?error", none, true⟩
      | .ok _ =>
        let lr := assertPath loginRedirectCfg
        let target := if lr ≠ "" then lr else g.prefixPath ++ "/userinfo"
        ⟨target, some did, false⟩

/-- A JavaScript value as the userinfo handler discriminates it:
`null`, `undefined`, or an actual user record. -/
inductive JsVal where
  | jsNull
  | jsUndefined
  | jsUser (u : Nat)
deriving Repr, DecidableEq

/-- JavaScript truthiness restricted to the values above: `null` and
`undefined` are falsy, a user record is truthy. -/
def jsFalsy : JsVal → Bool
  | .jsNull => true
  | .jsUndefined => true
  | .jsUser _ => false

/-- Response payload of the userinfo handler: `{ user: null, info }`,
`{ user: null, error }`, or `{ user }`. -/
inductive UserInfoResp where
  | nullInfo (info : String)
  | nullError (error : String)
  | userResp (user : JsVal)
deriving Repr, DecidableEq

/-- The userinfo route handler (src/packages/client/index.ts lines
189-200), applied to the destructured `{ user, error }` returned by
`getSessionUser`: `user === null` answers the not-logged-in object,
any other falsy `user` answers the error object, and a truthy `user`
is returned as `{ user }`. -/
def userinfoHandler (user : JsVal) (error : String) : UserInfoResp :=
  if user = .jsNull then .nullInfo "not logged-in"
  else if jsFalsy user then .nullError error
  else .userResp user

/-- The three possible states of the session lookup behind
`getSessionUser`. -/
inductive SessionLookup where
  | noSession
  | lookupFailed (e : String)
  | found (u : Nat)
deriving Repr, DecidableEq

/-- Modelled from the spec: `getSessionUser` from `./session`
(src/packages/client/session.ts is not under src/).  Per the spec it
returns `{ user, error }` with three distinguishable outcomes: no
session yields a `null` user; a session whose user lookup fails yields
no user (but not `null` — the handler distinguishes the two) together
with the error; success yields the user. -/
def getSessionUser : SessionLookup → JsVal × String
  | .noSession => (.jsNull, "")
  | .lookupFailed e => (.jsUndefined, e)
  | .found u => (.jsUser u, "")

/-- The non-null assertion `ctx.oauthClient!` performed by every route
handler: dereferencing `null`/`undefined` would throw, modelled as an
error result. -/
def derefAssert : Option Nat → Except JsErr Nat
  | none => .error (.otherError 0)
  | some c => .ok c

/-- A globals record as it stands right after a mount with no static
public URL and no mount path, once bootstrap stored the cookie secret:
everything but the secret still empty. -/
def exGlobals : RespGlobals := ⟨"sec", "", "", "", "", "", ""⟩

/-- An instance state where bootstrap has completed (storage handle and
resolver set, secret stored, no error) but no request has been
processed yet. -/
def exState : MwState := ⟨exGlobals, ⟨some 0, none, some 0⟩, none, false⟩

/-- A local development request: `Host: localhost:4000` over plain
http, middleware mounted at the application root. -/
def exReqLocal : Request := ⟨"http", some "localhost:4000", ""⟩

/-- A reverse-proxied production request: `Host: api.example.com` over
https, middleware mounted at the application root. -/
def exReqPublic : Request := ⟨"https", some "api.example.com", ""⟩

/-- A request with no Host header at all, over plain http, mounted at
the application root. -/
def exReqNoHost : Request := ⟨"http", none, ""⟩

/-- An instance state while bootstrap is still pending: no storage
handle, no secret, no resolver, no error recorded. -/
def exStatePending : MwState := ⟨⟨"", "", "", "", "", "", ""⟩, ⟨none, none, none⟩, none, false⟩

/-- An instance state after bootstrap failed with a recorded error. -/
def exStateFailed : MwState := ⟨exGlobals, ⟨none, none, none⟩, some (.otherError 7), false⟩

/-- An instance state after a first request whose detection succeeded:
public URL and every derived field resolved, routes registered, client
constructed. -/
def exStateResolved : MwState :=
  ⟨⟨"sec", "https://api.example.com", "", "https://api.example.com",
    "/onelyid", "/onelyid", "https://api.example.com/onelyid"⟩,
   ⟨some 0, some 1, some 0⟩, none, true⟩

/-- A bootstrap environment where every collaborator succeeds. -/
def exBootEnv : BootEnv := ⟨.ok 3, .ok (), .ok "gen", .ok 4, .ok 5⟩

/-- A bootstrap environment where opening the storage handle throws. -/
def exBootEnvFail : BootEnv := ⟨.error (.otherError 3), .ok (), .ok "gen", .ok 4, .ok 5⟩

/-! ## Branch equations for the gate -/

/-- A recorded bootstrap error short-circuits the whole gate body. -/
theorem gateStep_failed_eq (s : MwState) (req : Request) (cc : Except JsErr Nat)
    (e : JsErr) (h : s.initError = some e) :
    gateStep s req cc = ⟨.nextError e, s, noActions⟩ := by
  unfold gateStep; rw [h]

/-- While a bootstrap resource is unset the gate answers 503. -/
theorem gateStep_pending_eq (s : MwState) (req : Request) (cc : Except JsErr Nat)
    (herr : s.initError = none)
    (hpend : s.ctx.db = none ∨ s.globals.cookieSecret = "" ∨ s.ctx.resolver = none) :
    gateStep s req cc = ⟨.send503 "Service initializing", s, noActions⟩ := by
  unfold gateStep; rw [herr]; simp [hpend]

/-- After bootstrap the gate proceeds to the `gateReady` stages. -/
theorem gateStep_ready_eq (s : MwState) (req : Request) (cc : Except JsErr Nat)
    (herr : s.initError = none)
    (hready : ¬(s.ctx.db = none ∨ s.globals.cookieSecret = "" ∨ s.ctx.resolver = none)) :
    gateStep s req cc = gateReady s req cc := by
  unfold gateStep; rw [herr]; simp [hready]

/-- With `publicUrl` still empty, `gateReady` runs the detection block
and continues with the detected globals. -/
theorem gateReady_detect_eq (s : MwState) (req : Request) (cc : Except JsErr Nat)
    (hpu : s.globals.publicUrl = "") :
    gateReady s req cc =
      (if (detectPublicUrl s.globals req).publicUrl = INVALID then
        ⟨.send503 "Invalid publicUrl provided! Valid example: https://example.com",
          { s with globals := detectPublicUrl s.globals req }, ⟨true, false, false, false⟩⟩
      else gateTail s req cc (detectPublicUrl s.globals req) true) := by
  simp [gateReady, hpu]

/-- With `publicUrl` already resolved, `gateReady` skips detection. -/
theorem gateReady_nodetect_eq (s : MwState) (req : Request) (cc : Except JsErr Nat)
    (hpu : s.globals.publicUrl ≠ "") :
    gateReady s req cc =
      (if s.globals.publicUrl = INVALID then
        ⟨.send503 "Invalid publicUrl provided! Valid example: https://example.com",
          s, ⟨false, false, false, false⟩⟩
      else gateTail s req cc s.globals false) := by
  simp [gateReady, hpu]

/-- The detection block never touches the path-derived fields, the
mount path or the cookie secret. -/
theorem detectPublicUrl_fields (g : RespGlobals) (req : Request) :
    (detectPublicUrl g req).basePath = g.basePath ∧
    (detectPublicUrl g req).prefixPath = g.prefixPath ∧
    (detectPublicUrl g req).prefixRoute = g.prefixRoute ∧
    (detectPublicUrl g req).mountPath = g.mountPath ∧
    (detectPublicUrl g req).cookieSecret = g.cookieSecret := by
  by_cases hd : assertPublicUrl (some (urlCandidate req)) ≠ "" <;>
    simp [detectPublicUrl, hd]

/-- The basePath block never touches `publicUrl`, `baseUrl`, the mount
path or the cookie secret. -/
theorem computeBasePaths_fields (g : RespGlobals) (req : Request) :
    (computeBasePaths g req).publicUrl = g.publicUrl ∧
    (computeBasePaths g req).baseUrl = g.baseUrl ∧
    (computeBasePaths g req).mountPath = g.mountPath ∧
    (computeBasePaths g req).cookieSecret = g.cookieSecret := by
  by_cases hb : req.reqBaseUrl ≠ "" <;> simp [computeBasePaths, hb]

/-- What the tail stages leave in the state and the action record,
whatever the client-construction outcome. -/
theorem gateTail_state (s : MwState) (req : Request) (cc : Except JsErr Nat)
    (g1 : RespGlobals) (d : Bool) :
    (gateTail s req cc g1 d).state.globals =
      (if decide (g1.basePath = "") = true then computeBasePaths g1 req else g1) ∧
    (gateTail s req cc g1 d).state.routesRegistered = true ∧
    (gateTail s req cc g1 d).acts.detectedUrl = d ∧
    (gateTail s req cc g1 d).acts.computedBasePath = decide (g1.basePath = "") ∧
    (gateTail s req cc g1 d).acts.registeredRoutes = !s.routesRegistered := by
  unfold gateTail
  by_cases hcl : s.ctx.oauthClient = none
  · simp only [if_pos hcl]
    cases cc <;> simp
  · simp [if_neg hcl]

/-- A tail pass that hands control onward has constructed (or already
had) the protocol client. -/
theorem gateTail_continue_client (s : MwState) (req : Request) (cc : Except JsErr Nat)
    (g1 : RespGlobals) (d : Bool)
    (h : (gateTail s req cc g1 d).outcome = .continueOn) :
    ∃ c, (gateTail s req cc g1 d).state.ctx.oauthClient = some c := by
  unfold gateTail at h ⊢
  by_cases hcl : s.ctx.oauthClient = none
  · simp only [if_pos hcl] at h ⊢
    cases cc with
    | error e => simp at h
    | ok c => exact ⟨c, by simp⟩
  · rcases Option.ne_none_iff_exists'.mp hcl with ⟨c, hc⟩
    exact ⟨c, by simp [if_neg hcl, hc]⟩

/-- A `gateReady` pass that hands control onward has a non-null
protocol client in the resulting context. -/
theorem gateReady_continue_client (s : MwState) (req : Request) (cc : Except JsErr Nat)
    (h : (gateReady s req cc).outcome = .continueOn) :
    ∃ c, (gateReady s req cc).state.ctx.oauthClient = some c := by
  by_cases hpu : s.globals.publicUrl = ""
  · rw [gateReady_detect_eq s req cc hpu] at h ⊢
    by_cases hc : (detectPublicUrl s.globals req).publicUrl = INVALID
    · rw [if_pos hc] at h; simp at h
    · rw [if_neg hc] at h ⊢; exact gateTail_continue_client _ _ _ _ _ h
  · rw [gateReady_nodetect_eq s req cc hpu] at h ⊢
    by_cases hc : s.globals.publicUrl = INVALID
    · rw [if_pos hc] at h; simp at h
    · rw [if_neg hc] at h ⊢; exact gateTail_continue_client _ _ _ _ _ h

/-! ## Claim theorems -/

/-- C1: while bootstrap is incomplete (storage handle, cookie secret or
resolver still unset) and no bootstrap error is recorded, the gate
answers every request with status 503 and the plain-text
`Service initializing` body, leaves the instance state untouched, and
performs no later gate step — no URL detection, no basePath
computation, no route registration, no client construction — and never
hands control to a route handler. -/
theorem gate_pending_returns_503 (s : MwState) (req : Request) (cc : Except JsErr Nat)
    (herr : s.initError = none)
    (hpend : s.ctx.db = none ∨ s.globals.cookieSecret = "" ∨ s.ctx.resolver = none) :
    gateStep s req cc = ⟨.send503 "Service initializing", s, noActions⟩ ∧
    (gateStep s req cc).outcome ≠ .continueOn := by
  have h1 := gateStep_pending_eq s req cc herr hpend
  exact ⟨h1, by rw [h1]; simp⟩

/-- Witness for C1: a fresh instance with bootstrap still pending
503s a concrete local request. -/
theorem gate_pending_returns_503_witness :
    gateStep exStatePending exReqLocal (.ok 1) =
      ⟨.send503 "Service initializing", exStatePending, noActions⟩ ∧
    (gateStep exStatePending exReqLocal (.ok 1)).outcome ≠ .continueOn :=
  gate_pending_returns_503 exStatePending exReqLocal (.ok 1) rfl (Or.inl rfl)

/-- C2: once a bootstrap error is recorded, every request — whatever
its transport context — is answered by forwarding that same error to
the host framework's error channel, with the state untouched and no
gate step run (so never a 503 and never a route handler), and the same
happens identically on every subsequent request. -/
theorem gate_failed_forwards_error (s : MwState) (req : Request) (cc : Except JsErr Nat)
    (e : JsErr) (h : s.initError = some e) :
    gateStep s req cc = ⟨.nextError e, s, noActions⟩ ∧
    ∀ req2 cc2, gateStep (gateStep s req cc).state req2 cc2 = ⟨.nextError e, s, noActions⟩ := by
  have h1 := gateStep_failed_eq s req cc e h
  refine ⟨h1, fun req2 cc2 => ?_⟩
  rw [h1]
  exact gateStep_failed_eq s req2 cc2 e h

/-- Witness for C2: a concrete failed instance forwards the recorded
error on a first request and again, identically, on a second request
with a different transport context. -/
theorem gate_failed_forwards_error_witness :
    gateStep exStateFailed exReqLocal (.ok 1) =
      ⟨.nextError (.otherError 7), exStateFailed, noActions⟩ ∧
    gateStep (gateStep exStateFailed exReqLocal (.ok 1)).state exReqPublic (.ok 2) =
      ⟨.nextError (.otherError 7), exStateFailed, noActions⟩ :=
  ⟨(gate_failed_forwards_error exStateFailed exReqLocal (.ok 1) (.otherError 7) rfl).1,
   (gate_failed_forwards_error exStateFailed exReqLocal (.ok 1) (.otherError 7) rfl).2
     exReqPublic (.ok 2)⟩

/-- C9: whenever the gate hands control onward to the registered route
handlers (`next()` with no error), the protocol client field of the
context is non-null, so the handlers' `ctx.oauthClient!` assertions
never dereference null. -/
theorem handlers_client_nonnull (s : MwState) (req : Request) (cc : Except JsErr Nat)
    (h : (gateStep s req cc).outcome = .continueOn) :
    ∃ c, (gateStep s req cc).state.ctx.oauthClient = some c ∧
      derefAssert ((gateStep s req cc).state.ctx.oauthClient) = .ok c := by
  rcases hie : s.initError with _ | e
  · by_cases hp : (s.ctx.db = none ∨ s.globals.cookieSecret = "" ∨ s.ctx.resolver = none)
    · rw [gateStep_pending_eq s req cc hie hp] at h; simp at h
    · rw [gateStep_ready_eq s req cc hie hp] at h ⊢
      rcases gateReady_continue_client s req cc h with ⟨c, hc⟩
      exact ⟨c, hc, by rw [hc]; rfl⟩
  · rw [gateStep_failed_eq s req cc e hie] at h; simp at h

/-- Witness for C9: on a concrete first request that passes the gate,
the resulting context holds a live protocol client. -/
theorem handlers_client_nonnull_witness :
    ∃ c, (gateStep exState exReqLocal (.ok 1)).state.ctx.oauthClient = some c ∧
      derefAssert ((gateStep exState exReqLocal (.ok 1)).state.ctx.oauthClient) = .ok c :=
  handlers_client_nonnull exState exReqLocal (.ok 1) (by decide)

/-- C3 counterexample: the one-time resolutions are NOT all frozen by
the first request.  A first local request (host `localhost:4000`)
passes the gate via the loopback fallback — `baseUrl` becomes
`http://127.0.0.1:4000` and `basePath` is frozen from it — but because
the fallback leaves `publicUrl` empty, a second request with host
`api.example.com` re-runs detection and replaces `baseUrl` (and sets
`publicUrl`), so the derived base URL does not keep the value computed
on first resolution. -/
theorem first_resolution_not_frozen_cex :
    (gateStep exState exReqLocal (.ok 1)).outcome = .continueOn ∧
    (gateStep exState exReqLocal (.ok 1)).state.globals.baseUrl = "http://127.0.0.1:4000" ∧
    (gateStep exState exReqLocal (.ok 1)).state.globals.basePath
      = "http://127.0.0.1:4000/onelyid" ∧
    (gateStep (gateStep exState exReqLocal (.ok 1)).state exReqPublic (.ok 2)).acts.detectedUrl
      = true ∧
    (gateStep (gateStep exState exReqLocal (.ok 1)).state exReqPublic (.ok 2)).state.globals.baseUrl
      = "https://api.example.com" ∧
    (gateStep (gateStep exState exReqLocal (.ok 1)).state exReqPublic (.ok 2)).state.globals.baseUrl
      ≠ (gateStep exState exReqLocal (.ok 1)).state.globals.baseUrl := by
  decide

/-- C3 amended: the base path with its prefix fields, and route
registration, are frozen after any request resolved them: every later
gate pass leaves them exactly as computed and re-runs neither the
basePath block nor registration.  The public URL and its derived base
URL are frozen exactly once `publicUrl` is nonempty (detection
succeeded, or a static URL was configured): from then on every gate
pass leaves the whole globals record unchanged and never re-runs
detection.  (When the first detection fell back to loopback,
`publicUrl` stays empty and detection does re-run — the
counterexample — but the path fields and registration still never
change.) -/
theorem resolution_frozen_after_first_success (s : MwState) (req : Request)
    (cc : Except JsErr Nat)
    (hbp : s.globals.basePath ≠ "") (hreg : s.routesRegistered = true) :
    ((gateStep s req cc).state.globals.basePath = s.globals.basePath ∧
     (gateStep s req cc).state.globals.prefixPath = s.globals.prefixPath ∧
     (gateStep s req cc).state.globals.prefixRoute = s.globals.prefixRoute ∧
     (gateStep s req cc).state.globals.mountPath = s.globals.mountPath ∧
     (gateStep s req cc).state.routesRegistered = true ∧
     (gateStep s req cc).acts.computedBasePath = false ∧
     (gateStep s req cc).acts.registeredRoutes = false) ∧
    (s.globals.publicUrl ≠ "" →
      (gateStep s req cc).state.globals = s.globals ∧
      (gateStep s req cc).acts.detectedUrl = false) := by
  rcases hie : s.initError with _ | e
  · by_cases hp : (s.ctx.db = none ∨ s.globals.cookieSecret = "" ∨ s.ctx.resolver = none)
    · rw [gateStep_pending_eq s req cc hie hp]
      exact ⟨⟨rfl, rfl, rfl, rfl, hreg, rfl, rfl⟩, fun _ => ⟨rfl, rfl⟩⟩
    · rw [gateStep_ready_eq s req cc hie hp]
      by_cases hpu : s.globals.publicUrl = ""
      · rw [gateReady_detect_eq s req cc hpu]
        rcases detectPublicUrl_fields s.globals req with ⟨hb, hpp, hpr, hm, _⟩
        refine ⟨?_, fun hpu2 => absurd hpu hpu2⟩
        by_cases hc : (detectPublicUrl s.globals req).publicUrl = INVALID
        · rw [if_pos hc]
          exact ⟨hb, hpp, hpr, hm, hreg, rfl, rfl⟩
        · rw [if_neg hc]
          rcases gateTail_state s req cc (detectPublicUrl s.globals req) true
            with ⟨hg, hr, _, hcb, hrr⟩
          have hnb : decide ((detectPublicUrl s.globals req).basePath = "") = false := by
            rw [hb]; simp [hbp]
          rw [hnb] at hg hcb
          simp only [Bool.false_eq_true, if_false] at hg
          exact ⟨by rw [hg, hb], by rw [hg, hpp], by rw [hg, hpr], by rw [hg, hm],
                 hr, hcb, by rw [hrr, hreg]; rfl⟩
      · rw [gateReady_nodetect_eq s req cc hpu]
        by_cases hc : s.globals.publicUrl = INVALID
        · rw [if_pos hc]
          exact ⟨⟨rfl, rfl, rfl, rfl, hreg, rfl, rfl⟩, fun _ => ⟨rfl, rfl⟩⟩
        · rw [if_neg hc]
          rcases gateTail_state s req cc s.globals false with ⟨hg, hr, hd, hcb, hrr⟩
          have hnb : decide (s.globals.basePath = "") = false := by simp [hbp]
          rw [hnb] at hg hcb
          simp only [Bool.false_eq_true, if_false] at hg
          exact ⟨⟨by rw [hg], by rw [hg], by rw [hg], by rw [hg], hr, hcb,
                  by rw [hrr, hreg]; rfl⟩,
                 fun _ => ⟨hg, hd⟩⟩
  · rw [gateStep_failed_eq s req cc e hie]
    exact ⟨⟨rfl, rfl, rfl, rfl, hreg, rfl, rfl⟩, fun _ => ⟨rfl, rfl⟩⟩

/-- Witness for the amended C3: a fully resolved concrete instance
processes a later request with a different transport context without
changing any globals field and without re-running detection. -/
theorem resolution_frozen_after_first_success_witness :
    (gateStep exStateResolved exReqLocal (.ok 5)).state.globals = exStateResolved.globals ∧
    (gateStep exStateResolved exReqLocal (.ok 5)).acts.detectedUrl = false :=
  (resolution_frozen_after_first_success exStateResolved exReqLocal (.ok 5)
    (by decide) rfl).2 (by decide)

/-! ## Detection lemmas -/

/-- When the candidate URL validates to a nonempty value, the
detection block freezes it into `publicUrl` and `baseUrl`. -/
theorem detectPublicUrl_success (g : RespGlobals) (req : Request) (u : String)
    (hu : assertPublicUrl (some (urlCandidate req)) = u) (hne : u ≠ "") :
    detectPublicUrl g req = { g with publicUrl := u, baseUrl := u } := by
  simp [detectPublicUrl, hu, hne]

/-- When the candidate URL fails validation, the detection block
leaves `publicUrl` alone and points `baseUrl` at loopback with the
port extracted from the Host header. -/
theorem detectPublicUrl_fallback (g : RespGlobals) (req : Request)
    (hfb : assertPublicUrl (some (urlCandidate req)) = "") :
    detectPublicUrl g req =
      { g with baseUrl := "http://127.0.0.1" ++
          (if extractedPort req.host = "80" then "" else ":" ++ extractedPort req.host) } := by
  simp [detectPublicUrl, hfb]

/-- The tail stages never change `publicUrl` or `baseUrl`. -/
theorem gateTail_pub_base (s : MwState) (req : Request) (cc : Except JsErr Nat)
    (g1 : RespGlobals) (d : Bool) :
    (gateTail s req cc g1 d).state.globals.publicUrl = g1.publicUrl ∧
    (gateTail s req cc g1 d).state.globals.baseUrl = g1.baseUrl := by
  rcases gateTail_state s req cc g1 d with ⟨hg, -, -, -, -⟩
  rw [hg]
  by_cases hb : decide (g1.basePath = "") = true
  · rw [if_pos hb]
    exact ⟨(computeBasePaths_fields g1 req).1, (computeBasePaths_fields g1 req).2.1⟩
  · rw [if_neg hb]; exact ⟨rfl, rfl⟩

/-- Splitting a list that does not contain the separator yields the
whole list as the single piece. -/
theorem splitChar_no_sep (sep : Char) (l : List Char) (hl : l.contains sep = false) :
    splitChar sep l = [l] := by
  induction l with
  | nil => rfl
  | cons c rest ih =>
    rw [List.contains_cons] at hl
    simp only [Bool.or_eq_false_iff] at hl
    have hc : ¬ c = sep := by
      intro h
      subst h
      simp at hl
    have hrest := ih hl.2
    unfold splitChar
    rw [if_neg hc, hrest]

/-- C5: with no static public URL (so `publicUrl` is still empty), the
first request to pass the failure and pending checks determines the
public URL from its transport context.  With host `api.example.com`
and protocol `https`, `publicUrl` (and `baseUrl`) become
`https://api.example.com`; with host `localhost:4000`, whose candidate
fails validation, `publicUrl` stays unset and `baseUrl` falls back to
the loopback URL `http://127.0.0.1:4000` built from the port portion
of the Host header. -/
theorem publicUrl_autodetect_first_request (s : MwState) (cc : Except JsErr Nat)
    (herr : s.initError = none)
    (hready : ¬(s.ctx.db = none ∨ s.globals.cookieSecret = "" ∨ s.ctx.resolver = none))
    (hpu : s.globals.publicUrl = "") :
    (∀ req : Request, req.protocol = "https" → req.host = some "api.example.com" →
      (gateStep s req cc).state.globals.publicUrl = "https://api.example.com" ∧
      (gateStep s req cc).state.globals.baseUrl = "https://api.example.com") ∧
    (∀ req : Request, req.protocol = "http" → req.host = some "localhost:4000" →
      (gateStep s req cc).state.globals.publicUrl = "" ∧
      (gateStep s req cc).state.globals.baseUrl = "http://127.0.0.1:4000") := by
  constructor
  · intro req hp hh
    rw [gateStep_ready_eq s req cc herr hready, gateReady_detect_eq s req cc hpu]
    have hcand : urlCandidate req = "https://api.example.com" := by
      simp only [urlCandidate, hp, hh]
      decide
    have hval : assertPublicUrl (some (urlCandidate req)) = "https://api.example.com" := by
      rw [hcand]; decide
    have hdet := detectPublicUrl_success s.globals req _ hval (by decide)
    have hinv : (detectPublicUrl s.globals req).publicUrl ≠ INVALID := by
      rw [hdet]
      show ("https://api.example.com" : String) ≠ INVALID
      decide
    rw [if_neg hinv]
    have hpb := gateTail_pub_base s req cc (detectPublicUrl s.globals req) true
    exact ⟨by rw [hpb.1, hdet], by rw [hpb.2, hdet]⟩
  · intro req hp hh
    rw [gateStep_ready_eq s req cc herr hready, gateReady_detect_eq s req cc hpu]
    have hcand : urlCandidate req = "http://localhost:4000" := by
      simp only [urlCandidate, hp, hh]
      decide
    have hval : assertPublicUrl (some (urlCandidate req)) = "" := by
      rw [hcand]; decide
    have hport : extractedPort req.host = "4000" := by
      rw [hh]; decide
    have hurl : "http://127.0.0.1" ++ (if ("4000" : String) = "80" then "" else ":" ++ "4000")
        = "http://127.0.0.1:4000" := by decide
    have hdet := detectPublicUrl_fallback s.globals req hval
    rw [hport, hurl] at hdet
    have hinv : (detectPublicUrl s.globals req).publicUrl ≠ INVALID := by
      rw [hdet]
      show s.globals.publicUrl ≠ INVALID
      rw [hpu]; decide
    rw [if_neg hinv]
    have hpb := gateTail_pub_base s req cc (detectPublicUrl s.globals req) true
    constructor
    · rw [hpb.1, hdet]
      exact hpu
    · rw [hpb.2, hdet]

/-- Witness for C5: from a concrete bootstrapped, still-unresolved
instance, the https request to `api.example.com` freezes that URL, and
the `localhost:4000` request falls back to `http://127.0.0.1:4000`. -/
theorem publicUrl_autodetect_first_request_witness :
    ((gateStep exState exReqPublic (.ok 1)).state.globals.publicUrl = "https://api.example.com" ∧
     (gateStep exState exReqPublic (.ok 1)).state.globals.baseUrl = "https://api.example.com") ∧
    ((gateStep exState exReqLocal (.ok 1)).state.globals.publicUrl = "" ∧
     (gateStep exState exReqLocal (.ok 1)).state.globals.baseUrl = "http://127.0.0.1:4000") :=
  ⟨(publicUrl_autodetect_first_request exState (.ok 1) rfl (by decide) rfl).1 exReqPublic rfl rfl,
   (publicUrl_autodetect_first_request exState (.ok 1) rfl (by decide) rfl).2 exReqLocal rfl rfl⟩

/-- C10: in the auto-detection fallback branch, a Host header with no
colon — or an absent Host header — yields the empty string as the
extracted port, which differs from `"80"`, so the gate sets `baseUrl`
to the literal string `http://127.0.0.1:`, ending in a colon with no
port digits. -/
theorem fallback_empty_port_colon_url (s : MwState) (req : Request) (cc : Except JsErr Nat)
    (herr : s.initError = none)
    (hready : ¬(s.ctx.db = none ∨ s.globals.cookieSecret = "" ∨ s.ctx.resolver = none))
    (hpu : s.globals.publicUrl = "")
    (hfb : assertPublicUrl (some (urlCandidate req)) = "")
    (hnc : req.host = none ∨ ∃ h, req.host = some h ∧ strContains h ':' = false) :
    extractedPort req.host = "" ∧
    (gateStep s req cc).state.globals.baseUrl = "http://127.0.0.1:" := by
  have hport : extractedPort req.host = "" := by
    rcases hnc with hn | ⟨h, hh, hc⟩
    · rw [hn]; rfl
    · rw [hh]
      show (⟨(splitChar ':' h.data).getD 1 []⟩ : String) = ""
      rw [splitChar_no_sep ':' h.data hc]
      rfl
  refine ⟨hport, ?_⟩
  rw [gateStep_ready_eq s req cc herr hready, gateReady_detect_eq s req cc hpu]
  have hdet := detectPublicUrl_fallback s.globals req hfb
  rw [hport] at hdet
  have hurl : "http://127.0.0.1" ++ (if ("" : String) = "80" then "" else ":" ++ "")
      = "http://127.0.0.1:" := by decide
  rw [hurl] at hdet
  have hinv : (detectPublicUrl s.globals req).publicUrl ≠ INVALID := by
    rw [hdet]
    show s.globals.publicUrl ≠ INVALID
    rw [hpu]; decide
  rw [if_neg hinv]
  have hpb := gateTail_pub_base s req cc (detectPublicUrl s.globals req) true
  rw [hpb.2, hdet]

/-- Witness for C10: a request with no Host header at all makes the
fallback produce `baseUrl = "http://127.0.0.1:"`. -/
theorem fallback_empty_port_colon_url_witness :
    extractedPort exReqNoHost.host = "" ∧
    (gateStep exState exReqNoHost (.ok 1)).state.globals.baseUrl = "http://127.0.0.1:" :=
  fallback_empty_port_colon_url exState exReqNoHost (.ok 1) rfl (by decide) rfl
    (by decide) (Or.inl rfl)

/-- C4: the bootstrap sequence runs open/create storage, migration,
fetch-or-generate of the cookie secret (only when no nonempty static
secret was configured — with a static secret the storage secret
operation is never invoked), then resolver construction, in that
order; any step that throws records its error as the terminal
bootstrap error and no later step of the sequence executes. -/
theorem bootstrap_sequence_order (env : BootEnv) (s : String) :
    (s ≠ "" → BootOp.opGetOrCreateSecret ∉ (runBootstrap env s).trace ∧
              (runBootstrap env s).cookieSecret = s) ∧
    ((runBootstrap env s).initError = none →
      (runBootstrap env s).trace =
        [BootOp.opCreateDb, BootOp.opMigrate] ++
          (if s = "" then [BootOp.opGetOrCreateSecret] else []) ++
          [BootOp.opCreateIdResolver, BootOp.opCreateBidiResolver] ∧
      (runBootstrap env s).db.isSome = true ∧ (runBootstrap env s).resolver.isSome = true) ∧
    (∀ e, env.createDb = .error e →
      (runBootstrap env s).initError = some e ∧
      (runBootstrap env s).trace = [BootOp.opCreateDb]) ∧
    (∀ db e, env.createDb = .ok db → env.migrateToLatest = .error e →
      (runBootstrap env s).initError = some e ∧
      (runBootstrap env s).trace = [BootOp.opCreateDb, BootOp.opMigrate]) ∧
    (∀ db e, env.createDb = .ok db → env.migrateToLatest = .ok () → s = "" →
      env.getOrCreateCookieSecret = .error e →
      (runBootstrap env s).initError = some e ∧
      (runBootstrap env s).trace =
        [BootOp.opCreateDb, BootOp.opMigrate, BootOp.opGetOrCreateSecret]) ∧
    (∀ db e, env.createDb = .ok db → env.migrateToLatest = .ok () →
      (s = "" → ∃ x, env.getOrCreateCookieSecret = .ok x) →
      env.createIdResolver = .error e →
      (runBootstrap env s).initError = some e ∧
      BootOp.opCreateBidiResolver ∉ (runBootstrap env s).trace) ∧
    (∀ db b e, env.createDb = .ok db → env.migrateToLatest = .ok () →
      (s = "" → ∃ x, env.getOrCreateCookieSecret = .ok x) →
      env.createIdResolver = .ok b →
      env.createBidirectionalResolver = .error e →
      (runBootstrap env s).initError = some e ∧
      (runBootstrap env s).resolver = none) := by
  rcases env with ⟨cdb, mig, goc, cir, cbr⟩
  by_cases hs : s = "" <;>
    cases cdb <;> cases mig <;> cases goc <;> cases cir <;> cases cbr <;>
    simp_all [runBootstrap]

/-- Witness for C4: with a nonempty static secret the storage secret
operation never runs and the secret stays the configured one; when
opening storage throws, the error is recorded and the sequence stops
after the first step. -/
theorem bootstrap_sequence_order_witness :
    (BootOp.opGetOrCreateSecret ∉ (runBootstrap exBootEnv "cfg").trace ∧
     (runBootstrap exBootEnv "cfg").cookieSecret = "cfg") ∧
    ((runBootstrap exBootEnvFail "").initError = some (.otherError 3) ∧
     (runBootstrap exBootEnvFail "").trace = [BootOp.opCreateDb]) :=
  ⟨(bootstrap_sequence_order exBootEnv "cfg").1 (by decide),
   (bootstrap_sequence_order exBootEnvFail "").2.2.1 (.otherError 3) rfl⟩

/-- C6: a `GET /login` whose handle query parameter is absent or fails
the handle syntax check is answered (with no HTTP error status) by the
JSON object `{ handle, error: "invalid handle" }` echoing the handle
(the empty string when absent), and the protocol client's authorize
operation is never called.  The syntax check is the external
`isValidHandle` from `@atproto/syntax`, quantified here; the real
check rejects `not_a_handle` (underscores are not legal in handles),
giving the witness below. -/
theorem login_invalid_handle_rejected (ivh : String → Bool)
    (auth : Except JsErr String) (q : Option String)
    (hinv : q = none ∨ ∃ h, q = some h ∧ ivh h = false) :
    loginHandler ivh auth q = ⟨.jsonHandleError (q.getD "") "invalid handle", false⟩ := by
  rcases hinv with hq | ⟨h, hq, hv⟩
  · subst hq; rfl
  · subst hq
    simp [loginHandler, hv]

/-- Witness for C6: with a syntax check rejecting `not_a_handle`, the
handler echoes it back with the invalid-handle error and the authorize
operation is not called (even though it would succeed). -/
theorem login_invalid_handle_rejected_witness :
    loginHandler (fun _ => false) (.ok "https://auth.example.com/flow")
      (some "not_a_handle") =
      ⟨.jsonHandleError "not_a_handle" "invalid handle", false⟩ :=
  login_invalid_handle_rejected (fun _ => false) (.ok "https://auth.example.com/flow")
    (some "not_a_handle") (Or.inr ⟨"not_a_handle", rfl, rfl⟩)

/-- The canonical-form check of `assertPath` forces a nonempty path. -/
theorem strStartsWith_ne_empty (p : String) (h : strStartsWith p "/" = true) : p ≠ "" := by
  intro hp
  subst hp
  simp [strStartsWith, List.isPrefixOf] at h

/-- C7: if any step of the callback's exchange-and-persist sequence
throws (exchange failure, session open failure, save failure), the
handler logs and redirects to the generic `/?error` at the application
root — the same response whatever the error, so no failure detail
reaches the client — and nothing is persisted.  On success the
persisted session did equals the exchanged identity's did and the
handler redirects to the configured post-login path, or to
`prefixPath + "/userinfo"` when none is configured. -/
theorem callback_failure_redirects_success_persists (env : CallbackEnv)
    (cfg : Option String) (g : RespGlobals) :
    (∀ e, env.exchange = .error e →
      callbackHandler env cfg g = ⟨"/?error", none, true⟩) ∧
    (∀ e, env.getSession = .error e →
      callbackHandler env cfg g = ⟨"/?error", none, true⟩) ∧
    (∀ e, env.save = .error e →
      callbackHandler env cfg g = ⟨"/?error", none, true⟩) ∧
    (∀ did sess, env.exchange = .ok did → env.getSession = .ok sess → env.save = .ok () →
      (callbackHandler env cfg g).savedDid = some did ∧
      (callbackHandler env cfg g).logged = false ∧
      (cfg = none → (callbackHandler env cfg g).redirectTo = g.prefixPath ++ "/userinfo") ∧
      (∀ p, cfg = some p → strStartsWith p "/" = true → strEndsWith p "/" = false →
        (callbackHandler env cfg g).redirectTo = p)) := by
  rcases env with ⟨ex, gs, sv⟩
  refine ⟨?_, ?_, ?_, ?_⟩
  · intro e he; cases ex <;> simp_all [callbackHandler]
  · intro e he; cases ex <;> cases gs <;> simp_all [callbackHandler]
  · intro e he; cases ex <;> cases gs <;> cases sv <;> simp_all [callbackHandler]
  · intro did sess hex hgs hsv
    subst hex; subst hgs; subst hsv
    refine ⟨by simp [callbackHandler], by simp [callbackHandler], ?_, ?_⟩
    · intro hc; subst hc
      simp [callbackHandler, assertPath]
    · intro p hc hst hen
      subst hc
      have hne : p ≠ "" := strStartsWith_ne_empty p hst
      simp [callbackHandler, assertPath, hst, hen, hne]

/-- Witness for C7: a concrete failing exchange redirects to `/?error`
with nothing persisted, and a concrete successful exchange persists
the exchanged did and redirects to the default userinfo path under the
prefix. -/
theorem callback_failure_redirects_success_persists_witness :
    callbackHandler ⟨.error (.otherError 1), .ok 0, .ok ()⟩ none exGlobals =
      ⟨"/?error", none, true⟩ ∧
    ((callbackHandler ⟨.ok "did:plc:abc", .ok 0, .ok ()⟩ none exGlobals).savedDid
        = some "did:plc:abc" ∧
     (callbackHandler ⟨.ok "did:plc:abc", .ok 0, .ok ()⟩ none exGlobals).redirectTo
        = "/userinfo") :=
  ⟨(callback_failure_redirects_success_persists ⟨.error (.otherError 1), .ok 0, .ok ()⟩
      none exGlobals).1 (.otherError 1) rfl,
   ((callback_failure_redirects_success_persists ⟨.ok "did:plc:abc", .ok 0, .ok ()⟩
      none exGlobals).2.2.2 "did:plc:abc" 0 rfl rfl rfl).1,
   ((callback_failure_redirects_success_persists ⟨.ok "did:plc:abc", .ok 0, .ok ()⟩
      none exGlobals).2.2.2 "did:plc:abc" 0 rfl rfl rfl).2.2.1 rfl⟩

/-- C8: the userinfo handler produces exactly one of three distinct
responses according to the session lookup: no session yields
`{ user: null, info: "not logged-in" }`; a present session whose user
lookup fails yields `{ user: null, error }`; a successful lookup
yields `{ user }` — and the absent and error outcomes are
distinguishable responses. -/
theorem userinfo_three_outcomes :
    (∀ lk : SessionLookup, lk = .noSession →
      userinfoHandler (getSessionUser lk).1 (getSessionUser lk).2 = .nullInfo "not logged-in") ∧
    (∀ (lk : SessionLookup) (e : String), lk = .lookupFailed e →
      userinfoHandler (getSessionUser lk).1 (getSessionUser lk).2 = .nullError e) ∧
    (∀ (lk : SessionLookup) (u : Nat), lk = .found u →
      userinfoHandler (getSessionUser lk).1 (getSessionUser lk).2 = .userResp (.jsUser u)) ∧
    (∀ i e, UserInfoResp.nullInfo i ≠ UserInfoResp.nullError e) := by
  refine ⟨?_, ?_, ?_, ?_⟩
  · rintro lk rfl; rfl
  · rintro lk e rfl; simp [getSessionUser, userinfoHandler, jsFalsy]
  · rintro lk u rfl; simp [getSessionUser, userinfoHandler, jsFalsy]
  · intro i e h
    cases h

/-- Witness for C8: the three concrete lookups produce the three
distinct concrete responses. -/
theorem userinfo_three_outcomes_witness :
    userinfoHandler (getSessionUser .noSession).1 (getSessionUser .noSession).2
      = .nullInfo "not logged-in" ∧
    userinfoHandler (getSessionUser (.lookupFailed "lookup failed")).1
      (getSessionUser (.lookupFailed "lookup failed")).2 = .nullError "lookup failed" ∧
    userinfoHandler (getSessionUser (.found 9)).1 (getSessionUser (.found 9)).2
      = .userResp (.jsUser 9) :=
  ⟨userinfo_three_outcomes.1 .noSession rfl,
   userinfo_three_outcomes.2.1 (.lookupFailed "lookup failed") "lookup failed" rfl,
   userinfo_three_outcomes.2.2.1 (.found 9) 9 rfl⟩
